import Mathlib

/-!
Verification development for the `acumatica-dev-tools` desktop shell.

The embedded code comes from `src/main/main.ts`: the SQLite initialization
block (lines 84-117), the startup timer (lines 238-240) and the task
scheduler `StartTasks` with its `cron.schedule` recurring timer
(lines 245-252).  Components that the spec describes but whose source is
not under `src/` (the reconciler pipeline in `actions/getInstances.ts`
and the SQL schema files under `assets/sql/`) are modelled from the
spec, and are marked as such in their doc comments.
-/

namespace AcumaticaDevTools

/-! ## Persistent store: settings and instances tables -/

/-- A row of the `settings` table.  The insert at main.ts:110-114 writes the
SQLite literal `0` for `extractMsi`; SQLite represents booleans as the
integers 0 (false) and 1 (true), so the column is modelled as `Bool`. -/
structure SettingsRow where
  hostname : String
  extractMsi : Bool
deriving DecidableEq

/-- The default settings row inserted by
`INSERT INTO settings (hostname, extractMsi) VALUES ("localhost", 0)`
(main.ts:111). -/
def defaultSettingsRow : SettingsRow :=
  { hostname := "localhost", extractMsi := false }

/-- A row of the `instances` table: identity key, mutable attribute
(status), and last-updated timestamp (spec §3, §6). -/
structure StoredRec where
  id : String
  status : String
  lastUpdated : Nat
deriving DecidableEq

/-- State of the SQLite database.  `none` means the table does not exist
yet; `some rows` means the table exists with the given rows. -/
structure DbState where
  settingsTable : Option (List SettingsRow)
  instancesTable : Option (List StoredRec)
deriving DecidableEq

/-- Modelled from the spec: the contents of `assets/sql/create-settings.sql`
and `assets/sql/create-instances.sql` are read with `fs.readFileSync`
(main.ts:91,97) but the files themselves are not under `src/`.  The spec
(§4.1) says `initialize()` "idempotently ensures the settings and
instances schemas exist (creates tables if absent; no-op otherwise)",
i.e. `CREATE TABLE IF NOT EXISTS`: an absent table becomes an empty
table, an existing table is untouched. -/
def createTableIfNotExists {α : Type} (t : Option (List α)) : Option (List α) :=
  match t with
  | none => some []
  | some rows => some rows

/-- The two schema-creation statements run inside `db.serialize`
(main.ts:90-100). -/
def createSchemas (s : DbState) : DbState :=
  { settingsTable := createTableIfNotExists s.settingsTable,
    instancesTable := createTableIfNotExists s.instancesTable }

/-- The body of the `SELECT * FROM settings` callback on the success path
(main.ts:107-115): if the table holds no rows, insert the default row,
otherwise leave the rows as they are. -/
def settingsRowsAfterCheck (rows : List SettingsRow) : List SettingsRow :=
  if rows.length == 0 then rows ++ [defaultSettingsRow] else rows

/-- The whole `db.serialize` initialization block (main.ts:89-117) on the
success path: create both schemas, then run the settings emptiness check
and conditional insert. -/
def dbInit (s : DbState) : DbState :=
  let s1 := createSchemas s
  match s1.settingsTable with
  | none => s1
  | some rows => { s1 with settingsTable := some (settingsRowsAfterCheck rows) }

/-! ## The erroring `db.all` callback (C9) -/

/-- Outcome of running the `SELECT * FROM settings` callback
(main.ts:102-116).  `jsTypeError` models the JavaScript `TypeError`
raised by reading `.length` off `undefined`. -/
inductive QueryOutcome where
  | ok (table : List SettingsRow)
  | jsTypeError
deriving DecidableEq

/-- The `db.all('SELECT * FROM settings', ...)` callback (main.ts:102-116),
given the error argument and the rows argument the sqlite3 driver passes
(`rows` is `undefined`, i.e. `none`, exactly when the query errored).
Returns the console log lines it emits and the outcome.  The error branch
logs `err.message` but does not return; control then reaches
`rows.length` (main.ts:107), which raises a `TypeError` when `rows` is
`undefined`. -/
def settingsSelectCallback (err : Option String) (rows : Option (List SettingsRow)) :
    List String × QueryOutcome :=
  let logs : List String :=
    match err with
    | some m => [m]
    | none => []
  match rows with
  | none => (logs, QueryOutcome.jsTypeError)
  | some rs => (logs, QueryOutcome.ok (settingsRowsAfterCheck rs))

/-! ## Boot: database open and schema reads (C5) -/

/-- The console output produced by the `new sqlite.Database` open callback
(main.ts:85-87): on error the message is logged with the prefix
`Database opening error: `; nothing else happens and nothing is thrown. -/
def openCallbackLogs (openErr : Option String) : List String :=
  match openErr with
  | some e => ["Database opening error: " ++ e]
  | none => []

/-- Observable result of module start-up. -/
structure BootTrace where
  logs : List String
  crashed : Bool
  pipelineScheduled : Bool
deriving DecidableEq

/-- Module start-up of main.ts with respect to storage errors.  A database
open error only runs the logging callback (main.ts:85-87); no code
inspects open success afterwards, so `db.serialize`, `app.whenReady` and
the `setTimeout` that schedules `StartTasks` (main.ts:238-240) all still
run.  An unreadable schema file makes `fs.readFileSync` (main.ts:91,97)
throw synchronously inside the `db.serialize` callback, an uncaught
exception during module evaluation: the process crashes and nothing is
scheduled. -/
def boot (openErr : Option String) (schemaReadable : Bool) : BootTrace :=
  let logs := openCallbackLogs openErr
  if schemaReadable then
    { logs := logs, crashed := false, pipelineScheduled := true }
  else
    { logs := logs, crashed := true, pipelineScheduled := false }

/-! ## Scheduler: startup timer, cron ticks, pipeline runs (C2, C4, C10) -/

/-- The fixed startup delay of the one-shot timer (main.ts:240): 5000 ms. -/
def startupDelayMs : Nat := 5000

/-- `setTimeout` (main.ts:238-240) fires exactly once, `startupDelayMs`
milliseconds after the `whenReady` handler ran: the list of its fire
times. -/
def setTimeoutFires (readyMs : Nat) : List Nat :=
  [readyMs + startupDelayMs]

/-- Events relevant to the task scheduler.  `timerFire mw` is the one-shot
startup timer firing with the current value of the `mainWindow` reference
(`none` models the JavaScript `null`); `cronTick` is a firing of the
recurring `cron.schedule` timer; `runFinish` is the asynchronous
completion of one `GetInstances` pipeline execution. -/
inductive SchedEvent where
  | timerFire (mw : Option Unit)
  | cronTick
  | runFinish
deriving DecidableEq

/-- Scheduler state: whether `cron.schedule` has been called (main.ts:249),
how many pipeline executions are currently in flight, and how many were
ever started. -/
structure SchedState where
  cronArmed : Bool
  inFlight : Nat
  started : Nat
deriving DecidableEq

/-- State before the startup timer fires: no cron schedule, no runs. -/
def initialSched : SchedState :=
  { cronArmed := false, inFlight := 0, started := 0 }

/-- One scheduler step, from main.ts:238-252.  The timer callback calls
`StartTasks` only when `mainWindow != null` (main.ts:239); `StartTasks`
invokes `GetInstances` once and arms the cron schedule (main.ts:248-251).
The cron callback (main.ts:250) invokes `GetInstances` unconditionally —
there is no guard consulting the in-flight state.  Modelled from the
spec: `GetInstances` (src/main/actions/getInstances.ts, not under
`src/`) is the asynchronous fetch→reconcile→notify pipeline (§4.5, §5),
so invoking it starts an execution that stays in flight until a later
`runFinish` event. -/
def schedStep (s : SchedState) (e : SchedEvent) : SchedState :=
  match e with
  | SchedEvent.timerFire mw =>
    match mw with
    | some _ =>
      { cronArmed := true, inFlight := s.inFlight + 1, started := s.started + 1 }
    | none => s
  | SchedEvent.cronTick =>
    if s.cronArmed then
      { s with inFlight := s.inFlight + 1, started := s.started + 1 }
    else s
  | SchedEvent.runFinish => { s with inFlight := s.inFlight - 1 }

/-- The scheduler state after a sequence of events from process start. -/
def schedRun (evs : List SchedEvent) : SchedState :=
  evs.foldl schedStep initialSched

/-! ## The cron expression (C3) -/

/-- Minute-granularity semantics of the cron expression
`*/15 * * * *` (main.ts:249): it matches an absolute time `t` (in
minutes) exactly when the minute-of-hour field `t % 60` is a multiple of
the step 15. -/
def cronMatches (t : Nat) : Bool :=
  (t % 60) % 15 == 0

/-- The first time strictly after `s` at which `cronMatches` holds
(closed form; `nextFire_is_first_match` below proves it is exactly
that). -/
def nextFire (s : Nat) : Nat :=
  s + (15 - s % 15)

/-- The time of the n-th recurring tick after the schedule is armed at
time `s` (in minutes); `nthTick s 0 = s` is the arming time itself, not
a tick. -/
def nthTick (s : Nat) : Nat → Nat
  | 0 => s
  | n + 1 => nextFire (nthTick s n)

theorem cronMatches_iff (t : Nat) : cronMatches t = true ↔ t % 15 = 0 := by
  have h : t % 60 % 15 = t % 15 := Nat.mod_mod_of_dvd t (by norm_num)
  simp [cronMatches, h]

theorem nextFire_is_first_match (s : Nat) :
    s < nextFire s ∧ cronMatches (nextFire s) = true ∧
      ∀ t, s < t → cronMatches t = true → nextFire s ≤ t := by
  have hm : s % 15 < 15 := Nat.mod_lt _ (by norm_num)
  have hdm := Nat.div_add_mod s 15
  refine ⟨by unfold nextFire; omega, ?_, ?_⟩
  · rw [cronMatches_iff]
    unfold nextFire
    omega
  · intro t hst hmt
    rw [cronMatches_iff] at hmt
    have hdmt := Nat.div_add_mod t 15
    unfold nextFire
    by_contra hlt
    push_neg at hlt
    have : t / 15 ≤ s / 15 := by
      by_contra hq
      push_neg at hq
      omega
    omega

theorem nextFire_mul (m : Nat) : nextFire (15 * m) = 15 * m + 15 := by
  unfold nextFire
  have : 15 * m % 15 = 0 := by
    rw [Nat.mul_comm]
    exact Nat.mul_mod_left m 15
  omega

/-! ## Reconciler (C7, C8) -/

/-- A record returned by one fetch: identity key plus mutable attribute
(spec §3, §4.3). -/
structure FetchedRec where
  id : String
  status : String
deriving DecidableEq

/-- The identity keys of the stored instance rows, in order. -/
def idsOf (st : List StoredRec) : List String :=
  st.map (fun r => r.id)

/-- Modelled from the spec: `upsertInstance(record)` of §4.1 lives in the
reconciler pipeline (src/main/actions/getInstances.ts), which is not
under `src/`.  Per the spec it "inserts if identity key is new, otherwise
updates mutable fields and the timestamp". -/
def upsertInstance (now : Nat) (st : List StoredRec) (r : FetchedRec) : List StoredRec :=
  if (st.find? (fun q => q.id == r.id)).isSome then
    st.map (fun q =>
      if q.id == r.id then { id := q.id, status := r.status, lastUpdated := now } else q)
  else
    st ++ [{ id := r.id, status := r.status, lastUpdated := now }]

/-- Classification of one fetched record by the reconciler (spec §4.3). -/
inductive RecTag where
  | added
  | updated
  | unchanged
deriving DecidableEq

/-- Modelled from the spec: the per-record step of `reconcile` (§4.3),
whose source (src/main/actions/getInstances.ts) is not under `src/`:
"for each fetched record, look up by identity key in the Persistent
Store; if absent, mark as added and upsert; if present and any mutable
attribute differs, mark as updated and upsert; if present and unchanged,
mark as unchanged (no write)". -/
def reconcileOne (now : Nat) (st : List StoredRec) (r : FetchedRec) :
    RecTag × List StoredRec :=
  match st.find? (fun q => q.id == r.id) with
  | none => (RecTag.added, upsertInstance now st r)
  | some q =>
    if q.status == r.status then (RecTag.unchanged, st)
    else (RecTag.updated, upsertInstance now st r)

/-- The change-set returned by one reconciliation pass (spec §4.3). -/
structure ChangeSet where
  added : List String
  updated : List String
  unchanged : List String
deriving DecidableEq

/-- One fold step of `reconcile`: classify the record against the current
store and append its key to the matching change-set bucket. -/
def reconcileStep (now : Nat) (acc : ChangeSet × List StoredRec) (r : FetchedRec) :
    ChangeSet × List StoredRec :=
  let step := reconcileOne now acc.2 r
  match step.1 with
  | RecTag.added => ({ acc.1 with added := acc.1.added ++ [r.id] }, step.2)
  | RecTag.updated => ({ acc.1 with updated := acc.1.updated ++ [r.id] }, step.2)
  | RecTag.unchanged => ({ acc.1 with unchanged := acc.1.unchanged ++ [r.id] }, step.2)

/-- Modelled from the spec: `reconcile(fetchedRecords)` (§4.3) processes
the fetched records in sequence, accumulating the change-set and the
evolving store. -/
def reconcile (now : Nat) (recs : List FetchedRec) (st : List StoredRec) :
    ChangeSet × List StoredRec :=
  recs.foldl (reconcileStep now)
    ({ added := [], updated := [], unchanged := [] }, st)

theorem reconcileStep_snd (now : Nat) (acc : ChangeSet × List StoredRec)
    (r : FetchedRec) : (reconcileStep now acc r).2 = (reconcileOne now acc.2 r).2 := by
  cases htag : (reconcileOne now acc.2 r).1 <;> simp [reconcileStep, htag]

theorem upsertInstance_idsOf_nodup (now : Nat) (st : List StoredRec) (r : FetchedRec)
    (h : (idsOf st).Nodup) : (idsOf (upsertInstance now st r)).Nodup := by
  unfold upsertInstance
  by_cases hf : (st.find? (fun q => q.id == r.id)).isSome
  · rw [if_pos hf]
    have hmap : idsOf (st.map (fun q =>
        if q.id == r.id then { id := q.id, status := r.status, lastUpdated := now } else q))
        = idsOf st := by
      unfold idsOf
      rw [List.map_map]
      apply List.map_congr_left
      intro q _
      simp only [Function.comp_apply]
      split <;> rfl
    rw [hmap]
    exact h
  · rw [if_neg hf]
    rw [Option.not_isSome_iff_eq_none] at hf
    have hid : r.id ∉ idsOf st := by
      intro hmem
      unfold idsOf at hmem
      rcases List.mem_map.mp hmem with ⟨q, hq, hqe⟩
      have := List.find?_eq_none.mp hf q hq
      simp [hqe] at this
    unfold idsOf
    rw [List.map_append]
    rw [List.nodup_append]
    refine ⟨h, by simp, ?_⟩
    intro a ha hb
    simp only [List.map_cons, List.map_nil, List.mem_singleton] at hb
    subst hb
    exact hid ha

theorem reconcileOne_store_cases (now : Nat) (st : List StoredRec) (r : FetchedRec) :
    (reconcileOne now st r).2 = st ∨ (reconcileOne now st r).2 = upsertInstance now st r := by
  unfold reconcileOne
  cases hf : st.find? (fun q => q.id == r.id) with
  | none => right; rfl
  | some q =>
    by_cases hs : q.status == r.status
    · left; simp [hs]
    · right; simp [hs]

theorem settingsRowsAfterCheck_idem (rows : List SettingsRow) :
    settingsRowsAfterCheck (settingsRowsAfterCheck rows) = settingsRowsAfterCheck rows := by
  cases rows <;> simp [settingsRowsAfterCheck]

/-- Claim C1: on a launch where the settings table is empty after schema
creation, the initialization block inserts exactly the single default row
(hostname "localhost", extractMsi false); on a launch where the table is
non-empty it inserts nothing; in particular after a first run (no table
yet) the settings table holds exactly one row. -/
theorem dbInit_settings_exactly_one_row (s : DbState) :
    ((createSchemas s).settingsTable = some [] →
      (dbInit s).settingsTable = some [defaultSettingsRow]) ∧
    (∀ rows, rows ≠ [] → (createSchemas s).settingsTable = some rows →
      (dbInit s).settingsTable = some rows) ∧
    (s.settingsTable = none → (dbInit s).settingsTable = some [defaultSettingsRow]) := by
  obtain ⟨ts, ti⟩ := s
  cases ts with
  | none =>
    refine ⟨fun _ => rfl, ?_, fun _ => rfl⟩
    intro rows hne heq
    simp [createSchemas, createTableIfNotExists] at heq
    exact absurd heq hne
  | some rows0 =>
    refine ⟨?_, ?_, ?_⟩
    · intro heq
      simp [createSchemas, createTableIfNotExists] at heq
      subst heq
      rfl
    · intro rows hne heq
      have heq2 : rows0 = rows := by
        simpa [createSchemas, createTableIfNotExists] using heq
      subst heq2
      simp [dbInit, createSchemas, createTableIfNotExists, settingsRowsAfterCheck,
        List.length_eq_zero, hne]
    · intro heq
      simp at heq
/-- Witness for C1 at concrete stores: a store with no settings table ends
with exactly the default row; a store with an existing non-empty settings
table is left as is. -/
theorem dbInit_settings_exactly_one_row_witness :
    (dbInit ⟨none, none⟩).settingsTable = some [defaultSettingsRow] ∧
    (dbInit ⟨some [⟨"h", true⟩], none⟩).settingsTable = some [⟨"h", true⟩] :=
  ⟨(dbInit_settings_exactly_one_row ⟨none, none⟩).2.2 rfl,
   (dbInit_settings_exactly_one_row ⟨some [⟨"h", true⟩], none⟩).2.1
     [⟨"h", true⟩] (by simp) rfl⟩

/-- Claim C6: schema creation is idempotent — against a store where both
tables already exist it is a no-op, creating each schema twice equals
creating it once, and running the whole initialization block twice leaves
the same store state as running it once. -/
theorem initialization_idempotent (s : DbState) :
    (s.settingsTable ≠ none → s.instancesTable ≠ none → createSchemas s = s) ∧
    createSchemas (createSchemas s) = createSchemas s ∧
    dbInit (dbInit s) = dbInit s := by
  obtain ⟨ts, ti⟩ := s
  refine ⟨?_, ?_, ?_⟩
  · intro h1 h2
    cases ts with
    | none => exact absurd rfl h1
    | some rows =>
      cases ti with
      | none => exact absurd rfl h2
      | some irows => rfl
  · cases ts <;> cases ti <;> rfl
  · cases ts <;> cases ti <;>
      simp [dbInit, createSchemas, createTableIfNotExists, settingsRowsAfterCheck_idem]
/-- Witness for C6 at concrete stores. -/
theorem initialization_idempotent_witness :
    createSchemas ⟨some [defaultSettingsRow], some []⟩ =
      (⟨some [defaultSettingsRow], some []⟩ : DbState) ∧
    dbInit (dbInit ⟨none, none⟩) = dbInit ⟨none, none⟩ :=
  ⟨(initialization_idempotent ⟨some [defaultSettingsRow], some []⟩).1
      (by simp) (by simp),
   (initialization_idempotent ⟨none, none⟩).2.2⟩

/-- Claim C9: when the startup `SELECT * FROM settings` query reports an
error, the callback logs the message but does not return from the error
branch; it falls through to `rows.length` on the undefined rows value and
raises a TypeError instead of a structured storage-read error.  The second
conjunct shows the fall-through directly: even with an error reported the
emptiness check still runs when rows happen to be present. -/
theorem settingsCallback_error_not_terminal (e : String) :
    settingsSelectCallback (some e) none = ([e], QueryOutcome.jsTypeError) ∧
    ∀ rows, settingsSelectCallback (some e) (some rows) =
      ([e], QueryOutcome.ok (settingsRowsAfterCheck rows)) :=
  ⟨rfl, fun _ => rfl⟩

/-- Counterexample to claim C5 as stated: a database open error
("the underlying storage cannot be opened") is not fatal — the callback
only logs it, the process does not crash and the task pipeline is still
scheduled. -/
theorem dbOpenError_not_fatal_cex :
    (boot (some "SQLITE_CANTOPEN") true).pipelineScheduled = true ∧
    (boot (some "SQLITE_CANTOPEN") true).crashed = false :=
  ⟨rfl, rfl⟩

/-- Claim C5 amended: there is no `StorageInitError`; a database open
failure is logged with the `Database opening error: ` prefix and startup
continues, still scheduling the pipeline, while an unreadable schema file
raises an uncaught exception that crashes startup before anything is
scheduled. -/
theorem storage_init_error_behavior (err : Option String) :
    (∀ e, err = some e →
      (boot err true).logs = ["Database opening error: " ++ e] ∧
      (boot err true).crashed = false ∧
      (boot err true).pipelineScheduled = true) ∧
    (boot err false).crashed = true ∧
    (boot err false).pipelineScheduled = false := by
  refine ⟨?_, ?_, ?_⟩
  · intro e he
    subst he
    exact ⟨rfl, rfl, rfl⟩
  · cases err <;> rfl
  · cases err <;> rfl
/-- Witness for the amended C5 at a concrete error. -/
theorem storage_init_error_behavior_witness :
    (boot (some "E") true).logs = ["Database opening error: " ++ "E"] ∧
    (boot (some "E") false).crashed = true :=
  ⟨((storage_init_error_behavior (some "E")).1 "E" rfl).1,
   (storage_init_error_behavior (some "E")).2.1⟩

/-- Counterexample to claim C2 as stated: after the startup timer fires
(window present) and before that run finishes, a cron tick fires; the
tick is not dropped — a second pipeline execution starts and two runs
are in flight at once. -/
theorem tick_during_run_not_dropped_cex :
    schedRun [SchedEvent.timerFire (some ()), SchedEvent.cronTick] =
      { cronArmed := true, inFlight := 2, started := 2 } :=
  rfl

/-- Claim C2 amended: once the cron schedule is armed, every tick
unconditionally starts a pipeline execution — there is no busy-guard, so
a tick firing while a run is in flight adds a second concurrent run
rather than being dropped. -/
theorem cron_tick_always_starts_run (s : SchedState) (h : s.cronArmed = true) :
    (schedStep s SchedEvent.cronTick).started = s.started + 1 ∧
    (schedStep s SchedEvent.cronTick).inFlight = s.inFlight + 1 := by
  simp [schedStep, h]
/-- Witness for the amended C2 at a state with one run already in
flight. -/
theorem cron_tick_always_starts_run_witness :
    SchedState.cronArmed ⟨true, 1, 1⟩ = true ∧
    (schedStep ⟨true, 1, 1⟩ SchedEvent.cronTick).started = 1 + 1 ∧
    (schedStep ⟨true, 1, 1⟩ SchedEvent.cronTick).inFlight = 1 + 1 :=
  ⟨rfl, (cron_tick_always_starts_run ⟨true, 1, 1⟩ rfl).1,
    (cron_tick_always_starts_run ⟨true, 1, 1⟩ rfl).2⟩

/-- Counterexample to claim C3 as stated: for a schedule armed at
wall-clock minute 7, the first recurring tick fires at minute 15 (the
next multiple of 15), not at 7 + 15·1 = 22 minutes. -/
theorem cadence_not_from_process_start_cex :
    nthTick 7 1 = 15 ∧ ¬ nthTick 7 1 = 7 + 15 * 1 := by
  constructor
  · rfl
  · decide

/-- Claim C3 amended: the recurring ticks of `*/15 * * * *` are aligned to
the wall clock, not offset from process start — for a schedule armed at
minute `s`, the n-th tick fires at minute 15·(⌊s/15⌋ + n), a multiple of
15 matched by the cron expression; this equals s + 15·n only when s is
itself a multiple of 15. -/
theorem cron_ticks_wall_clock_aligned (s n : Nat) (h : 1 ≤ n) :
    nthTick s n = 15 * (s / 15 + n) ∧ cronMatches (nthTick s n) = true := by
  have key : ∀ m, nthTick s (m + 1) = 15 * (s / 15 + (m + 1)) := by
    intro m
    induction m with
    | zero =>
      simp only [nthTick]
      unfold nextFire
      omega
    | succ k ih =>
      simp only [nthTick] at ih ⊢
      rw [ih, nextFire_mul]
      omega
  obtain ⟨m, rfl⟩ : ∃ m, n = m + 1 := ⟨n - 1, by omega⟩
  refine ⟨key m, ?_⟩
  rw [key m, cronMatches_iff]
  exact Nat.mul_mod_right 15 _
/-- Witness for the amended C3: first tick of a schedule armed at minute
7 fires at minute 15. -/
theorem cron_ticks_wall_clock_aligned_witness :
    1 ≤ 1 ∧ (nthTick 7 1 = 15 * (7 / 15 + 1) ∧ cronMatches (nthTick 7 1) = true) :=
  ⟨by decide, cron_ticks_wall_clock_aligned 7 1 (by decide)⟩

/-- Counterexample to claim C4 as stated: on a launch where the
`mainWindow` reference is null when the 5-second timer fires, the
initial pipeline run fires zero times, not exactly once. -/
theorem initial_run_zero_when_window_null_cex :
    (schedRun [SchedEvent.timerFire none]).started = 0 ∧
    ¬ (schedRun [SchedEvent.timerFire none]).started = 1 := by
  constructor
  · rfl
  · decide

/-- Claim C4 amended: the startup timer is a one-shot timer firing exactly
once, 5000 ms after readiness (a fixed constant, unrelated to the
15-minute cron cadence); at that instant the initial pipeline run starts
exactly once if the window reference is non-null and zero times if it is
null. -/
theorem startup_run_at_most_once (readyMs : Nat) :
    setTimeoutFires readyMs = [readyMs + 5000] ∧
    (setTimeoutFires readyMs).length = 1 ∧
    startupDelayMs = 5000 ∧
    (schedStep initialSched (SchedEvent.timerFire (some ()))).started = 1 ∧
    (schedRun [SchedEvent.timerFire none]).started = 0 :=
  ⟨rfl, rfl, rfl, rfl, rfl⟩

theorem schedRun_no_window_aux (evs : List SchedEvent)
    (h : ∀ mw, SchedEvent.timerFire mw ∈ evs → mw = none) :
    evs.foldl schedStep initialSched = initialSched := by
  induction evs with
  | nil => rfl
  | cons e rest ih =>
    have hstep : schedStep initialSched e = initialSched := by
      cases e with
      | timerFire mw =>
        have hmw := h mw (List.mem_cons_self _ _)
        subst hmw
        rfl
      | cronTick => rfl
      | runFinish => rfl
    simp only [List.foldl_cons, hstep]
    exact ih (fun mw hm => h mw (List.mem_cons_of_mem _ hm))

/-- Claim C10: the pipeline (initial run and recurring schedule) starts
only if the window reference is non-null when the startup timer fires;
on any process lifetime whose startup timer fires with a null window, no
pipeline run ever starts and the recurring cron schedule is never
armed. -/
theorem no_window_no_tasks (evs : List SchedEvent)
    (h : ∀ mw, SchedEvent.timerFire mw ∈ evs → mw = none) :
    (schedRun evs).started = 0 ∧ (schedRun evs).cronArmed = false ∧
    (schedRun evs).inFlight = 0 := by
  unfold schedRun
  rw [schedRun_no_window_aux evs h]
  exact ⟨rfl, rfl, rfl⟩
/-- Witness for C10 on a concrete lifetime: the timer fires with a null
window, then a cron tick and a run-finish event occur; nothing ever
starts. -/
theorem no_window_no_tasks_witness :
    (∀ mw, SchedEvent.timerFire mw ∈
        [SchedEvent.timerFire none, SchedEvent.cronTick, SchedEvent.runFinish] →
      mw = none) ∧
    ((schedRun [SchedEvent.timerFire none, SchedEvent.cronTick,
        SchedEvent.runFinish]).started = 0 ∧
      (schedRun [SchedEvent.timerFire none, SchedEvent.cronTick,
        SchedEvent.runFinish]).cronArmed = false ∧
      (schedRun [SchedEvent.timerFire none, SchedEvent.cronTick,
        SchedEvent.runFinish]).inFlight = 0) :=
  ⟨by decide, no_window_no_tasks _ (by decide)⟩

/-- Claim C7: a fetched record whose identity key is already stored with
an identical mutable attribute is classified `unchanged` and the store is
not written (left exactly as it was). -/
theorem reconcileOne_unchanged_no_write (now : Nat) (st : List StoredRec)
    (r : FetchedRec) (q : StoredRec)
    (hq : st.find? (fun p => p.id == r.id) = some q)
    (hs : q.status = r.status) :
    reconcileOne now st r = (RecTag.unchanged, st) := by
  unfold reconcileOne
  rw [hq]
  simp [hs]
/-- Witness for C7 at a concrete store and record. -/
theorem reconcileOne_unchanged_no_write_witness :
    List.find? (fun p => p.id == FetchedRec.id ⟨"A", "up"⟩)
        [(⟨"A", "up", 0⟩ : StoredRec)] = some ⟨"A", "up", 0⟩ ∧
    StoredRec.status ⟨"A", "up", 0⟩ = FetchedRec.status ⟨"A", "up"⟩ ∧
    reconcileOne 5 [⟨"A", "up", 0⟩] ⟨"A", "up"⟩ = (RecTag.unchanged, [⟨"A", "up", 0⟩]) :=
  ⟨by decide, by decide,
    reconcileOne_unchanged_no_write 5 [⟨"A", "up", 0⟩] ⟨"A", "up"⟩ ⟨"A", "up", 0⟩
      (by decide) (by decide)⟩

theorem reconcile_foldl_nodup (now : Nat) (recs : List FetchedRec) :
    ∀ acc : ChangeSet × List StoredRec, (idsOf acc.2).Nodup →
      (idsOf ((recs.foldl (reconcileStep now) acc)).2).Nodup := by
  induction recs with
  | nil => intro acc h; simpa using h
  | cons r rest ih =>
    intro acc h
    simp only [List.foldl_cons]
    apply ih
    rw [reconcileStep_snd]
    rcases reconcileOne_store_cases now acc.2 r with hc | hc
    · rw [hc]; exact h
    · rw [hc]; exact upsertInstance_idsOf_nodup now acc.2 r h

/-- Claim C8: reconciliation preserves the uniqueness invariant — for any
sequence of fetched records processed against a store whose identity keys
are unique, the resulting store still has no two rows sharing an identity
key. -/
theorem reconcile_preserves_key_uniqueness (now : Nat) (recs : List FetchedRec)
    (st : List StoredRec) (h : (idsOf st).Nodup) :
    (idsOf (reconcile now recs st).2).Nodup := by
  unfold reconcile
  exact reconcile_foldl_nodup now recs
    ({ added := [], updated := [], unchanged := [] }, st) h
/-- Witness for C8: a fetch with a repeated key against an empty store
still yields a store with unique keys. -/
theorem reconcile_preserves_key_uniqueness_witness :
    (idsOf []).Nodup ∧
    (idsOf (reconcile 0 [⟨"A", "up"⟩, ⟨"B", "down"⟩, ⟨"A", "down"⟩] []).2).Nodup :=
  ⟨by simp [idsOf],
    reconcile_preserves_key_uniqueness 0 [⟨"A", "up"⟩, ⟨"B", "down"⟩, ⟨"A", "down"⟩]
      [] (by simp [idsOf])⟩

end AcumaticaDevTools
